import Mathlib

/-!
# Verification of the meal-planner approval workflow

Shallow embedding, in Lean 4, of the parts of the `meal-planner` repository
that the specification's claims are about:

* the Decision Normalizer `parse_slack_response` (`src/slack_integration.py`,
  lines 122-154);
* the approval/regeneration loop of `weekly_meal_planner_flow`
  (`src/main.py`, lines 357-524), including module-level name resolution
  (`src/main.py`, lines 6-39);
* the security check `validate_project_id` (`src/security_validation.py`,
  lines 24-88);
* the import structure of `src/todoist_mcp_integration.py` (lines 6-15)
  against the names actually defined by `src/security_validation.py`.

Python strings are modelled as `List Char`.  `str.lower()` is modelled by
`Char.toLower` (ASCII case mapping; every token the code compares against,
and every input used in a counterexample below, is cased only in the ASCII
range, where Python's `str.lower` agrees).  `str.strip()` is modelled over
the six ASCII whitespace characters Python strips for such inputs.
Exceptions are modelled with `Except`.
-/

namespace MealPlanner

/-- Python exceptions relevant to the claims.  Message payloads other than
the offending name are elided (no claim depends on message text). -/
inductive PyExc where
  | nameError (n : String)
  | importError (n : String)
  | timeoutError
  | projectAccessDenied
  | typeError
  | valueError
  deriving DecidableEq, Repr

/-! ## Python string primitives -/

/-- The whitespace characters `str.strip()` removes (ASCII range):
space, tab, newline, carriage return, vertical tab, form feed. -/
def isPySpace (c : Char) : Bool :=
  c = ' ' || c = '\t' || c = '\n' || c = '\r' || c = '\x0b' || c = '\x0c'

/-- `str.lower()` (ASCII case mapping, see header note). -/
def pyLowerL (l : List Char) : List Char :=
  l.map Char.toLower

/-- `str.lstrip()`. -/
def lstripL (l : List Char) : List Char :=
  l.dropWhile isPySpace

/-- `str.rstrip()`. -/
def rstripL (l : List Char) : List Char :=
  l.rdropWhile isPySpace

/-- `str.strip()`: whitespace removed from both ends. -/
def stripL (l : List Char) : List Char :=
  lstripL (rstripL l)

/-! ## Decision Normalizer — `parse_slack_response`
(`src/slack_integration.py`, lines 122-154) -/

/-- The approval tokens of `slack_integration.py`, line 139:
`["approve", "approved", "✓", "✅", "yes", "y"]`. -/
def approvalTokens : List (List Char) :=
  ["approve".data, "approved".data, "✓".data, "✅".data, "yes".data, "y".data]

/-- The rejection tokens of `slack_integration.py`, line 143:
`["reject", "rejected", "✗", "❌", "no", "n"]`. -/
def rejectionTokens : List (List Char) :=
  ["reject".data, "rejected".data, "✗".data, "❌".data, "no".data, "n".data]

/-- The literal characters of the pattern prefix `feedback:`. -/
def feedbackPrefixL : List Char := "feedback:".data

/-- `re.match(r"feedback:\s*(.+)", s, re.IGNORECASE)` applied (as in the
source, line 147) to the already lowercased subject, returning `group(1)`.
`re.match` anchors at the start only; `\s*` is greedy; `.` does not match a
newline, so `(.+)` is the maximal run of non-newline characters after the
skipped whitespace.  When the remainder after `feedback:` is entirely
whitespace, `\s*` backtracks and the match succeeds iff some character of
the remainder is not a newline, with `group(1)` the singleton of the last
such character (this corner is unreachable from `parse_slack_response`,
whose subject is stripped, but is kept for fidelity to the regex). -/
def matchFeedbackL (l : List Char) : Option (List Char) :=
  if feedbackPrefixL <+: l then
    let r := l.drop feedbackPrefixL.length
    let r2 := r.dropWhile isPySpace
    if r2 = [] then
      match r.reverse.dropWhile (fun c => c == '\n') with
      | [] => none
      | c :: _ => some [c]
    else
      some (r2.takeWhile (fun c => c != '\n'))
  else
    none

/-- `parse_slack_response` (`src/slack_integration.py`, lines 122-154).
Returns the tuple `(approved, feedback, regenerate)`.  The source lowercases
and strips the whole message first (line 136), compares against the approval
and rejection token lists (lines 139, 143), then tries the feedback pattern
on the lowercased text (line 147, feedback = `group(1).strip()`), and
finally falls back to returning the original text verbatim as feedback
(line 154). -/
def parse_slack_response (text : List Char) : Bool × Option (List Char) × Bool :=
  let text_lower := stripL (pyLowerL text)
  if text_lower ∈ approvalTokens then
    (true, none, false)
  else if text_lower ∈ rejectionTokens then
    (false, none, false)
  else
    match matchFeedbackL text_lower with
    | some g => (false, some (stripL g), true)
    | none => (false, some text, true)

/-- The first line of a string: everything before the first newline. -/
def firstLineL (l : List Char) : List Char :=
  l.takeWhile (fun c => c != '\n')

/-! ## The main flow — `weekly_meal_planner_flow`
(`src/main.py`, lines 357-524)

The flow's external collaborator calls (meal generation, posting to Slack,
triggering the polling deployment, the approval gate `pause_flow_run`) are
modelled by an environment supplying their results; the control flow, the
loop state (`regeneration_count`, `approval_received`, `feedback_text`) and
the branching on the approval input are translated statement by statement
from the source.  Python resolves a global name at the moment the statement
executes, against the module's namespace; the embedding does the same via
`resolveGlobal` against the list of names `src/main.py` actually binds. -/

/-- `ApprovalInput` (`src/models.py`, lines 12-34). -/
structure ApprovalInput where
  approved : Bool
  feedback : Option (List Char)
  regenerate : Bool
  deriving DecidableEq, Repr

/-- Outcome of `pause_flow_run(wait_for_input=ApprovalInput, timeout, key)`
(`src/main.py`, lines 449-453): either some resolver resumed the flow with
an `ApprovalInput`, or nothing arrived before `timeout` and the pause raises
a timeout error. -/
inductive GateOutcome where
  | resolved (a : ApprovalInput)
  | timeout
  deriving DecidableEq, Repr

/-- Environment supplying the results of the flow's external calls.
`genPlan n fb` is the meal plan `generate_meals_task` returns in the round
whose `regeneration_count` is `n` with feedback `fb`; `postTs n plan` the
Slack message timestamp from `post_to_slack_task`; `slackChannelId` the
value a Prefect-variable lookup of `"slack_channel_id"` would produce; and
`gate n` how the pause keyed `"approval-n"` would end. -/
structure FlowEnv (Plan : Type) where
  genPlan : Nat → Option (List Char) → Plan
  postTs : Nat → Plan → List Char
  slackChannelId : Option (List Char)
  gate : Nat → GateOutcome

/-- Counts of the flow's externally visible actions during one run. -/
structure FlowTrace where
  /-- `(regeneration_count, feedback_text)` at each `generate_meals_task`
  call (`src/main.py`, line 407), in order. -/
  generations : List (Nat × Option (List Char))
  /-- `post_to_slack_task` calls (line 415). -/
  posts : Nat
  /-- `run_deployment` calls for the polling fallback (lines 424-435). -/
  deployments : Nat
  /-- `pause_flow_run` calls (lines 449-453). -/
  pauses : Nat
  /-- `create_grocery_tasks_task` calls (line 498). -/
  groceryCalls : Nat
  /-- `post_final_plan_task` calls (line 507). -/
  finalPosts : Nat
  /-- `post_simple_grocery_list_task` calls (line 511). -/
  simpleListPosts : Nat
  deriving DecidableEq, Repr

def FlowTrace.empty : FlowTrace :=
  ⟨[], 0, 0, 0, 0, 0, 0⟩

/-- The names bound at module level by `src/main.py`: its imports
(lines 6-31) and its module-level assignments and definitions
(lines 37-39, 43-535).  Note that line 19 binds `Variable`
(`from prefect.variables import Variable`); nothing binds `variables`. -/
def mainModuleGlobals : List String :=
  ["asyncio", "os", "logfire", "flow", "task", "pause_flow_run",
   "get_run_context", "create_markdown_artifact", "create_table_artifact",
   "run_deployment", "Secret", "Variable",
   "generate_meal_plan", "parse_dietary_preferences",
   "ApprovalInput", "DietaryPreferences", "MealPlan",
   "monitor_slack_thread_for_approval", "poll_slack_and_resume_flow",
   "post_final_meal_plan_to_slack", "post_meal_plan_to_slack",
   "post_simple_grocery_list_to_slack", "resume_prefect_flow",
   "create_grocery_tasks_from_meal_plan",
   "timeout_seconds", "poll_interval_seconds", "max_regeneration_attempts",
   "create_meal_plan_artifact", "create_grocery_list_artifact",
   "parse_preferences_task", "generate_meals_task", "post_to_slack_task",
   "create_grocery_tasks_task", "post_final_plan_task",
   "post_simple_grocery_list_task", "slack_approval_polling_flow",
   "weekly_meal_planner_flow"]

/-- Python name resolution for a global: `NameError` when the module
namespace does not bind the name. -/
def resolveGlobal (globals : List String) (n : String) : Except PyExc Unit :=
  if n ∈ globals then Except.ok () else Except.error (PyExc.nameError n)

/-- `max_regeneration_attempts` (`src/main.py`, line 39). -/
def max_regeneration_attempts : Nat := 3

/-- Truthiness of an optional string (`approval_input.feedback` on
`src/main.py`, line 472): `None` and the empty string are falsy. -/
def pyTruthy : Option (List Char) → Bool
  | none => false
  | some s => !s.isEmpty

/-- The approval loop of `weekly_meal_planner_flow` (`src/main.py`,
lines 394-494), one recursive call per `while` iteration.

```
while not approval_received and regeneration_count <= 3:          # 399
    meal_plan = await generate_meals_task(preferences, feedback)  # 407
    message_ts = await post_to_slack_task(meal_plan, ...)         # 415
    channel_id = await variables.get("slack_channel_id", ...)     # 420
    await run_deployment(...)                                     # 424
    approval_input = await pause_flow_run(...)                    # 449
    if approval_input.approved: approval_received = True          # 467
    elif approval_input.regenerate and approval_input.feedback:   # 472
        feedback_text = ...; regeneration_count += 1
        if regeneration_count > max_regeneration_attempts:        # 483
            approval_received = True
    else: approval_received = True                                # 491
```

Setting `approval_received = True` and falling back to the (then false)
`while` guard is modelled by returning instead of recursing.  Line 420
resolves the global name `variables` before attempting the attribute call
`.get`; were it bound, the lookup would produce the configured channel id.
`pause_flow_run` with neither resolution nor timeout handled is modelled by
`GateOutcome`; a timeout raises (uncaught in the source), modelled as
`Except.error PyExc.timeoutError`.  Returns the final `(meal_plan,
regeneration_count)` on normal exit, together with the action trace. -/
def approvalLoop (Plan : Type) (env : FlowEnv Plan) (count : Nat)
    (feedback : Option (List Char)) (tr : FlowTrace) :
    FlowTrace × Except PyExc (Plan × Nat) :=
  if _h : count ≤ 3 then
    let plan := env.genPlan count feedback
    let tr1 := { tr with generations := tr.generations ++ [(count, feedback)] }
    let _message_ts := env.postTs count plan
    let tr2 := { tr1 with posts := tr1.posts + 1 }
    match resolveGlobal mainModuleGlobals "variables" with
    | Except.error e => (tr2, Except.error e)
    | Except.ok () =>
      let _channel_id := env.slackChannelId
      let tr3 := { tr2 with deployments := tr2.deployments + 1 }
      let tr4 := { tr3 with pauses := tr3.pauses + 1 }
      match env.gate count with
      | GateOutcome.timeout => (tr4, Except.error PyExc.timeoutError)
      | GateOutcome.resolved a =>
        if a.approved then
          (tr4, Except.ok (plan, count))
        else if a.regenerate && pyTruthy a.feedback then
          let feedback' := a.feedback
          let count' := count + 1
          if count' > max_regeneration_attempts then
            (tr4, Except.ok (plan, count'))
          else
            approvalLoop Plan env count' feedback' tr4
        else
          (tr4, Except.ok (plan, count))
  else
    -- Loop guard already false on entry: `meal_plan` was never bound, and
    -- line 498 would raise `NameError`.  Unreachable from the flow, which
    -- enters the loop with `regeneration_count = 0`.
    (tr, Except.error (PyExc.nameError "meal_plan"))
termination_by 4 - count
decreasing_by omega

/-- `weekly_meal_planner_flow` (`src/main.py`, lines 357-524): preference
parsing (line 392, result folded into the environment since the parsed
preferences do not influence control flow), the approval loop, then the
downstream tasks — `create_grocery_tasks_task` (line 498),
`post_final_plan_task` (line 507), `post_simple_grocery_list_task`
(line 511) — and the return value's `regeneration_count` (line 523).
No exception from the loop is caught anywhere in the flow body. -/
def weekly_meal_planner_flow (Plan : Type) (env : FlowEnv Plan) :
    FlowTrace × Except PyExc (Plan × Nat) :=
  match approvalLoop Plan env 0 none FlowTrace.empty with
  | (tr, Except.error e) => (tr, Except.error e)
  | (tr, Except.ok (plan, count)) =>
    let tr5 := { tr with groceryCalls := tr.groceryCalls + 1 }
    let tr6 := { tr5 with finalPosts := tr5.finalPosts + 1 }
    let tr7 := { tr6 with simpleListPosts := tr6.simpleListPosts + 1 }
    (tr7, Except.ok (plan, count))

/-! ## Security validation — `validate_project_id`
(`src/security_validation.py`, lines 24-88) -/

/-- `validate_project_id` (`src/security_validation.py`, lines 24-88).
`allowed` is `os.getenv("TODOIST_GROCERY_PROJECT_ID")` (line 44, `none`
when unset); `project_id` the argument (`Optional[str]`).  The checks, in
source order: unconfigured or empty allow-list value raises `ValueError`
(lines 46-48); `None` argument raises `TypeError` (lines 51-57); empty or
whitespace-only argument raises `ProjectAccessDenied` (lines 60-68);
mismatch raises `ProjectAccessDenied` (lines 71-81); otherwise the function
returns normally (logging elided). -/
def validate_project_id (allowed : Option (List Char))
    (project_id : Option (List Char)) : Except PyExc Unit :=
  match allowed with
  | none => Except.error PyExc.valueError
  | some a =>
    if a = [] then Except.error PyExc.valueError
    else
      match project_id with
      | none => Except.error PyExc.typeError
      | some pid =>
        if pid = [] ∨ stripL pid = [] then
          Except.error PyExc.projectAccessDenied
        else if pid ≠ a then
          Except.error PyExc.projectAccessDenied
        else
          Except.ok ()

/-! ## Import structure of `src/todoist_mcp_integration.py`
(lines 6-15) -/

/-- The names bound at module level by `src/security_validation.py`:
its imports (lines 6-10) and its definitions (lines 13, 24, 91). -/
def securityValidationGlobals : List String :=
  ["os", "Optional", "logfire", "variables",
   "ProjectAccessDenied", "validate_project_id", "validate_project_id_async"]

/-- The names bound at module level by `src/config.py` relevant to imports
from it (its imports, definitions and assignments, lines 7-322). -/
def configGlobals : List String :=
  ["os", "Path", "Optional", "load_dotenv", "BaseModel", "Field",
   "field_validator", "PREFECT_AVAILABLE", "get_secret", "get_variable",
   "Config", "load_config", "_config", "get_config"]

/-- The names bound at module level by `src/models.py` (lines 6-137). -/
def modelsGlobals : List String :=
  ["List", "Optional", "RunInput", "BaseModel", "Field",
   "ApprovalInput", "DietaryPreferences", "Ingredient", "InstructionStep",
   "Meal", "MealPlan", "TodoistTask"]

/-- `from <module> import <n>`: raises `ImportError` when the module does
not bind the name. -/
def importFrom (moduleGlobals : List String) (n : String) : Except PyExc Unit :=
  if n ∈ moduleGlobals then Except.ok () else Except.error (PyExc.importError n)

/-- Executing the module body of `src/todoist_mcp_integration.py` up to and
including its repository-internal imports, in source order (lines 13-15):
`from .config import get_config`, `from .models import MealPlan`,
`from .security_validation import validate_and_audit_task_creation`.
External imports (`typing`, `logfire`, `pydantic_ai`) are assumed to
resolve.  Every call to `create_grocery_tasks_from_meal_plan` requires this
module body to have executed successfully. -/
def importTodoistMcpIntegration : Except PyExc Unit := do
  importFrom configGlobals "get_config"
  importFrom modelsGlobals "MealPlan"
  importFrom securityValidationGlobals "validate_and_audit_task_creation"

/-! ## Concrete environments for the claims about the flow -/

/-- An environment whose every approval round would resolve with
`regenerate=true` and a non-empty feedback string — the scenario of the
regeneration-bound claim. -/
def alwaysRegenerateEnv : FlowEnv Nat where
  genPlan := fun n _ => n
  postTs := fun _ _ => "1700000000.000100".data
  slackChannelId := some "C0123456789".data
  gate := fun _ =>
    GateOutcome.resolved ⟨false, some "more vegetables please".data, true⟩

/-- An environment in which no resolution ever arrives before the timeout:
every gate, were it reached, would end in a timeout. -/
def timeoutEnv : FlowEnv Nat where
  genPlan := fun n _ => n
  postTs := fun _ _ => "1700000000.000100".data
  slackChannelId := some "C0123456789".data
  gate := fun _ => GateOutcome.timeout

/-- An environment whose round-0 resolution is a rejection without
feedback: `approved=false, feedback=None` (`regenerate=false`, as the
Decision Normalizer produces for a rejection token). -/
def rejectWithoutFeedbackEnv : FlowEnv Nat where
  genPlan := fun n _ => n
  postTs := fun _ _ => "1700000000.000100".data
  slackChannelId := some "C0123456789".data
  gate := fun _ => GateOutcome.resolved ⟨false, none, false⟩

end MealPlanner

deriving instance DecidableEq for Except

namespace MealPlanner

/-! ## Helper lemmas -/

/-- Python whitespace characters are unaffected by `str.strip()`-relevant
reasoning below: a predicate-`false` witness in `v` means `rdropWhile`
cannot consume into `u`. -/
theorem rdropWhile_append_keep {α : Type} (q : α → Bool) (u v : List α)
    (h : ∃ c ∈ v, q c = false) :
    List.rdropWhile q (u ++ v) = u ++ List.rdropWhile q v := by
  rcases h with ⟨c, hc, hq⟩
  have hne : v.reverse.dropWhile q ≠ [] := by
    intro hnil
    have := List.dropWhile_eq_nil_iff.mp hnil c (List.mem_reverse.mpr hc)
    rw [hq] at this
    exact Bool.false_ne_true this
  unfold List.rdropWhile
  rw [List.reverse_append, List.dropWhile_append,
    if_neg (by simpa [List.isEmpty_iff] using hne),
    List.reverse_append, List.reverse_reverse]

/-- A list containing a non-whitespace character does not strip to
nothing. -/
theorem stripL_ne_nil_of_exists {l : List Char}
    (h : ∃ c ∈ l, isPySpace c = false) : stripL l ≠ [] := by
  rcases h with ⟨c, hc, hws⟩
  intro hnil
  have hdecomp : rstripL l ++ (l.reverse.takeWhile isPySpace).reverse = l := by
    unfold rstripL List.rdropWhile
    rw [← List.reverse_append, List.takeWhile_append_dropWhile,
      List.reverse_reverse]
  have hmem : c ∈ rstripL l := by
    rcases List.mem_append.mp (hdecomp ▸ hc) with h1 | h1
    · exact h1
    · have := List.mem_takeWhile_imp (List.mem_reverse.mp h1)
      rw [hws] at this
      exact absurd this (Bool.false_ne_true)
  have hall := List.dropWhile_eq_nil_iff.mp hnil c hmem
  rw [hws] at hall
  exact Bool.false_ne_true hall

/-- `lstrip` does not touch a string starting with the (non-whitespace)
character `f` of the `feedback:` prefix. -/
theorem lstripL_feedback_append (x : List Char) :
    lstripL (feedbackPrefixL ++ x) = feedbackPrefixL ++ x := by
  have h : feedbackPrefixL ++ x = 'f' :: ("eedback:".data ++ x) := rfl
  rw [h]
  unfold lstripL
  rw [List.dropWhile_cons_of_neg (by decide)]

/-- Nothing starting with the prefix `feedback:` is an approval token
(no token starts with the character `f`). -/
theorem feedback_append_not_approval (x : List Char) :
    feedbackPrefixL ++ x ∉ approvalTokens := by
  intro h
  simp only [approvalTokens, List.mem_cons, List.not_mem_nil, or_false] at h
  rcases h with h | h | h | h | h | h <;>
    · have hh := congrArg List.head? h
      rw [show List.head? (feedbackPrefixL ++ x) = some 'f' from rfl] at hh
      exact absurd hh (by decide)

/-- Nothing starting with the prefix `feedback:` is a rejection token. -/
theorem feedback_append_not_rejection (x : List Char) :
    feedbackPrefixL ++ x ∉ rejectionTokens := by
  intro h
  simp only [rejectionTokens, List.mem_cons, List.not_mem_nil, or_false] at h
  rcases h with h | h | h | h | h | h <;>
    · have hh := congrArg List.head? h
      rw [show List.head? (feedbackPrefixL ++ x) = some 'f' from rfl] at hh
      exact absurd hh (by decide)

/-- Every run of the embedded flow, whatever the environment, takes the same
path: one generation (round 0, no feedback), one Slack post, then the
unresolvable global `variables` on `src/main.py`, line 420, raises
`NameError` — before the polling deployment is triggered and before
`pause_flow_run` is called, and the error propagates out of the flow. -/
theorem flow_run_raises_nameError (Plan : Type) (env : FlowEnv Plan) :
    weekly_meal_planner_flow Plan env =
      ({ FlowTrace.empty with generations := [(0, none)], posts := 1 },
       Except.error (PyExc.nameError "variables")) := by
  have hres : resolveGlobal mainModuleGlobals "variables"
      = Except.error (PyExc.nameError "variables") := by
    unfold resolveGlobal
    rw [if_neg (by decide)]
  unfold weekly_meal_planner_flow
  rw [approvalLoop]
  simp [hres, FlowTrace.empty]

/-! ## Claim theorems -/

/-- C8: in the approval loop of `weekly_meal_planner_flow`, the statement
`channel_id = await variables.get("slack_channel_id", default=None)`
(`src/main.py`, line 420) references the global name `variables`, which the
module never binds (line 19 imports only `Variable`); consequently every
run of the flow raises `NameError` there — after posting the plan to Slack
and before `run_deployment` launches the polling fallback or
`pause_flow_run` is invoked, so both are unreachable. -/
theorem C8_undefined_variables_global (Plan : Type) (env : FlowEnv Plan) :
    "variables" ∉ mainModuleGlobals ∧
    (weekly_meal_planner_flow Plan env).2
      = Except.error (PyExc.nameError "variables") ∧
    (weekly_meal_planner_flow Plan env).1.posts = 1 ∧
    (weekly_meal_planner_flow Plan env).1.deployments = 0 ∧
    (weekly_meal_planner_flow Plan env).1.pauses = 0 := by
  refine ⟨by decide, ?_, ?_, ?_, ?_⟩ <;>
    rw [flow_run_raises_nameError] <;> simp [FlowTrace.empty]

/-- C1 (code bug): with a resolver that always answers
`regenerate=true` with non-empty feedback, the claim (and the spec's §4.4
algorithm and §8 regeneration-bound property) demand exactly 4 generations
(rounds 0..3) and normal exit with the 4th plan.  Executing the code
instead performs exactly one generation (round 0, no feedback) and raises
`NameError("variables")` (`src/main.py`, line 420) before the first gate —
the resolver is never consulted. -/
theorem C1_regeneration_bound_diverges :
    weekly_meal_planner_flow Nat alwaysRegenerateEnv
      = ({ FlowTrace.empty with generations := [(0, none)], posts := 1 },
         Except.error (PyExc.nameError "variables")) ∧
    (weekly_meal_planner_flow Nat alwaysRegenerateEnv).1.generations.length
      = 1 := by
  refine ⟨flow_run_raises_nameError Nat alwaysRegenerateEnv, ?_⟩
  rw [flow_run_raises_nameError]
  simp [FlowTrace.empty]

/-- C2 (code bug): in the no-resolution-before-timeout scenario the claim
says `pause_flow_run` raises a timeout error that propagates out of the
flow.  Executing the code, the run does terminate fatally with no grocery
tasks and no final notification — but by `NameError("variables")`
(`src/main.py`, line 420) raised before `pause_flow_run` is ever called,
not by a gate timeout. -/
theorem C2_timeout_path_diverges :
    (weekly_meal_planner_flow Nat timeoutEnv).2
      = Except.error (PyExc.nameError "variables") ∧
    (weekly_meal_planner_flow Nat timeoutEnv).2
      ≠ Except.error PyExc.timeoutError ∧
    (weekly_meal_planner_flow Nat timeoutEnv).1.pauses = 0 ∧
    (weekly_meal_planner_flow Nat timeoutEnv).1.groceryCalls = 0 ∧
    (weekly_meal_planner_flow Nat timeoutEnv).1.finalPosts = 0 := by
  refine ⟨?_, ?_, ?_, ?_, ?_⟩ <;>
    rw [flow_run_raises_nameError] <;> simp [FlowTrace.empty]

/-- C6 (code bug): the claim says a round-0 rejection without feedback ends
the loop at once with round 0's plan and regeneration count 0, handed to
the downstream tasks.  Executing the code, the rejection is never
delivered: the run raises `NameError("variables")` (`src/main.py`,
line 420) before the gate, terminates without a result, and the downstream
tasks never run. -/
theorem C6_reject_without_feedback_diverges :
    (weekly_meal_planner_flow Nat rejectWithoutFeedbackEnv).2
      = Except.error (PyExc.nameError "variables") ∧
    (weekly_meal_planner_flow Nat rejectWithoutFeedbackEnv).2
      ≠ Except.ok (0, 0) ∧
    (weekly_meal_planner_flow Nat rejectWithoutFeedbackEnv).1.pauses = 0 ∧
    (weekly_meal_planner_flow Nat rejectWithoutFeedbackEnv).1.groceryCalls
      = 0 := by
  refine ⟨?_, ?_, ?_, ?_⟩ <;>
    rw [flow_run_raises_nameError] <;> simp [FlowTrace.empty]

/-- C9: `src/todoist_mcp_integration.py`, line 15, imports
`validate_and_audit_task_creation` from `security_validation`, but no
module of the source defines that name (`security_validation` defines only
`ProjectAccessDenied`, `validate_project_id` and
`validate_project_id_async`); executing the importing module's body
therefore raises `ImportError`, so no call to
`create_grocery_tasks_from_meal_plan` can ever run. -/
theorem C9_import_validate_and_audit_fails :
    "validate_and_audit_task_creation" ∉ securityValidationGlobals ∧
    "validate_and_audit_task_creation" ∉ configGlobals ∧
    "validate_and_audit_task_creation" ∉ modelsGlobals ∧
    "validate_and_audit_task_creation" ∉ mainModuleGlobals ∧
    importTodoistMcpIntegration
      = Except.error (PyExc.importError "validate_and_audit_task_creation") := by
  refine ⟨by decide, by decide, by decide, by decide, ?_⟩
  unfold importTodoistMcpIntegration importFrom
  rw [if_pos (by decide), if_pos (by decide), if_neg (by decide)]
  rfl

/-- C10: every output of `parse_slack_response` satisfies
`regenerate == (feedback is not None)`: the token branches return
`feedback=None, regenerate=false`, and both the feedback-pattern branch and
the catch-all return a non-`None` feedback with `regenerate=true`. -/
theorem C10_regenerate_iff_feedback_present (text : List Char) :
    (parse_slack_response text).2.2 = true
      ↔ (parse_slack_response text).2.1 ≠ none := by
  unfold parse_slack_response
  by_cases h1 : stripL (pyLowerL text) ∈ approvalTokens
  · simp [h1]
  · by_cases h2 : stripL (pyLowerL text) ∈ rejectionTokens
    · simp [h1, h2]
    · rcases hm : matchFeedbackL (stripL (pyLowerL text)) with _ | g <;>
        simp [h1, h2, hm]

/-- C5: any input that is not a recognized approval token, not a recognized
rejection token, and does not match the `feedback:` pattern — the three
conditions exactly as the code tests them, on the lowercased stripped
text — yields `approved=false, regenerate=true` and the original input
verbatim as feedback.  (Totality over arbitrary input is inherent: the
embedding of the source is a total function with no exception outcome.) -/
theorem C5_catch_all_verbatim (text : List Char)
    (h1 : stripL (pyLowerL text) ∉ approvalTokens)
    (h2 : stripL (pyLowerL text) ∉ rejectionTokens)
    (h3 : matchFeedbackL (stripL (pyLowerL text)) = none) :
    parse_slack_response text = (false, some text, true) := by
  unfold parse_slack_response
  simp [h1, h2, h3]

/-- Witness for C5 at the concrete input `"What is for dinner"`. -/
theorem C5_catch_all_verbatim_witness :
    parse_slack_response "What is for dinner".data
      = (false, some "What is for dinner".data, true) :=
  C5_catch_all_verbatim "What is for dinner".data
    (by decide) (by decide) (by decide)

/-- C4 is false as stated: the source lowercases the whole message before
the regex match and takes `group(1)` from the lowercased text
(`src/slack_integration.py`, lines 136, 147-149), so for the input
`"feedback: Make It Spicier"` the returned feedback is
`"make it spicier"`, not the trimmed trailing text of the input
(`"Make It Spicier"`). -/
theorem C4_feedback_not_verbatim_counterexample :
    parse_slack_response "feedback: Make It Spicier".data
      = (false, some "make it spicier".data, true) ∧
    "make it spicier".data ≠ "Make It Spicier".data :=
  ⟨by decide, by decide⟩

/-- C4 as amended: for input `prefix ++ t` where the prefix lowercases to
`feedback:` and the trailing content `t` contains a non-whitespace
character, `parse_slack_response` returns `approved=false`,
`regenerate=true`, and feedback equal to the trimmed first line (the regex
`.` stops at a newline) of the *lowercased* trailing content — not the
trailing text of the input verbatim. -/
theorem C4_feedback_lowercased_amended (p t : List Char)
    (hp : pyLowerL p = feedbackPrefixL)
    (ht : ∃ c ∈ pyLowerL t, isPySpace c = false) :
    parse_slack_response (p ++ t)
      = (false, some (stripL (firstLineL (stripL (pyLowerL t)))), true) := by
  have hlow : pyLowerL (p ++ t) = feedbackPrefixL ++ pyLowerL t := by
    unfold pyLowerL at hp ⊢
    rw [List.map_append, hp]
  have hstrip : stripL (pyLowerL (p ++ t))
      = feedbackPrefixL ++ rstripL (pyLowerL t) := by
    rw [hlow]
    unfold stripL rstripL
    rw [rdropWhile_append_keep isPySpace _ _ ht]
    exact lstripL_feedback_append _
  have hr2 : List.dropWhile isPySpace (rstripL (pyLowerL t))
      = stripL (pyLowerL t) := rfl
  have hr2ne : stripL (pyLowerL t) ≠ [] := stripL_ne_nil_of_exists ht
  have hmatch : matchFeedbackL (feedbackPrefixL ++ rstripL (pyLowerL t))
      = some (firstLineL (stripL (pyLowerL t))) := by
    unfold matchFeedbackL
    rw [if_pos (List.prefix_append _ _), List.drop_left]
    simp only []
    rw [hr2, if_neg hr2ne]
    rfl
  simp only [parse_slack_response]
  rw [hstrip,
    if_neg (feedback_append_not_approval _),
    if_neg (feedback_append_not_rejection _),
    hmatch]

/-- Witness for the amended C4 at a concrete mixed-case input. -/
theorem C4_feedback_lowercased_amended_witness :
    parse_slack_response ("FEEDBACK:".data ++ " Make It Extra Spicy".data)
      = (false, some "make it extra spicy".data, true) := by
  have h := C4_feedback_lowercased_amended "FEEDBACK:".data
    " Make It Extra Spicy".data (by decide) (by decide)
  rw [h]
  decide

/-- C7 is false as stated at a whitespace-only (but set, hence per the
code "configured") allow-list value: with
`TODOIST_GROCERY_PROJECT_ID = " "` and `project_id = " "`, the argument
equals the configured allow-listed value, yet `validate_project_id`
raises `ProjectAccessDenied` (the whitespace-only check on lines 60-68
of `src/security_validation.py` fires before the equality check) instead
of returning normally. -/
theorem C7_whitespace_allowlist_counterexample :
    validate_project_id (some " ".data) (some " ".data)
      = Except.error PyExc.projectAccessDenied ∧
    validate_project_id (some " ".data) (some " ".data) ≠ Except.ok () := by
  exact ⟨by decide, by decide⟩

/-- C7 as amended: provided the configured allow-list value contains a
non-whitespace character, `validate_project_id` returns normally exactly on
the matching id and fails closed everywhere else with the claimed
exceptions — mismatch and empty/whitespace-only ids raise
`ProjectAccessDenied`, a `None` id raises `TypeError`, and an unset or
empty allow-list value raises `ValueError` for every argument. -/
theorem C7_validate_project_id_amended (a : List Char) (ha : stripL a ≠ []) :
    (∀ pid : List Char,
      validate_project_id (some a) (some pid)
        = if pid = a then Except.ok ()
          else Except.error PyExc.projectAccessDenied) ∧
    validate_project_id (some a) none = Except.error PyExc.typeError ∧
    (∀ pid : Option (List Char),
      validate_project_id none pid = Except.error PyExc.valueError) ∧
    (∀ pid : Option (List Char),
      validate_project_id (some []) pid = Except.error PyExc.valueError) := by
  have ha0 : a ≠ [] := by
    intro h
    exact ha (by rw [h]; rfl)
  refine ⟨?_, ?_, fun _ => rfl, ?_⟩
  · intro pid
    by_cases hpa : pid = a
    · subst hpa
      simp only [validate_project_id]
      rw [if_neg ha0,
        if_neg (by rintro (h | h); exacts [ha0 h, ha h]),
        if_neg (show ¬pid ≠ pid from fun h => h rfl)]
      simp
    · simp only [validate_project_id]
      rw [if_neg ha0, if_neg (Ne.symm (fun h => hpa h.symm))]
      by_cases hempty : pid = [] ∨ stripL pid = []
      · rw [if_pos hempty]
      · rw [if_neg hempty, if_pos hpa]
  · simp only [validate_project_id]
    rw [if_neg ha0]
  · intro pid
    simp [validate_project_id]

/-- Witness for the amended C7 at a concrete configured id. -/
theorem C7_validate_project_id_amended_witness :
    validate_project_id (some "2334455".data) (some "2334455".data)
      = Except.ok () ∧
    validate_project_id (some "2334455".data) (some "99".data)
      = Except.error PyExc.projectAccessDenied := by
  have h := C7_validate_project_id_amended "2334455".data (by decide)
  constructor
  · rw [h.1 "2334455".data, if_pos rfl]
  · rw [h.1 "99".data, if_neg (by decide)]

end MealPlanner
